import Mathlib

/-!
Shallow embedding of `src/ai_api_backend/src/lib.rs`: an HTTP adapter that
routes chat requests, maps raw JSON messages onto typed conversation turns,
injects a fixed system directive, and forwards the conversation to an external
LLM service.  External collaborators (the `ic_llm` inference call and the
`serde_json` byte-level parser) are modelled as function parameters; the
serde-derived structural decoder is modelled separately from the spec for the
claims that need it.
-/

namespace AiApi

/-- Models `ic_llm::AssistantMessage`: optional textual content plus a list of
tool calls.  Tool calls are never constructed by this program, so their payload
is modelled as an uninterpreted record. -/
structure ToolCallRec where
  id : String
  deriving DecidableEq, Repr

/-- `ic_llm::AssistantMessage { content: Option<String>, tool_calls: Vec<_> }`. -/
structure AssistantMessage where
  content : Option String
  tool_calls : List ToolCallRec
  deriving DecidableEq, Repr

/-- `ic_llm::ChatMessage`: the closed set of conversation-turn variants used by
`lib.rs` (System, User, Assistant, Tool). -/
inductive ChatMessage where
  | System (content : String)
  | User (content : String)
  | Assistant (msg : AssistantMessage)
  | Tool (content : String) (tool_call_id : String)
  deriving DecidableEq, Repr

/-- `ic_llm::Model`; only the variant selected by `lib.rs` is relevant. -/
inductive Model where
  | Llama3_1_8B
  deriving DecidableEq, Repr

/-- The structured reply of the external inference call
(`ic_llm` response with a `message : AssistantMessage` field). -/
structure LlmResponse where
  message : AssistantMessage
  deriving DecidableEq, Repr

/-- `HttpRequest` from `lib.rs`: method, url, ordered header list, byte body.
Bytes are modelled as natural numbers. -/
structure HttpRequest where
  method : String
  url : String
  headers : List (String × String)
  body : List Nat
  deriving DecidableEq, Repr

/-- `HttpResponse` from `lib.rs`. -/
structure HttpResponse where
  status : Nat
  headers : List (String × String)
  body : List Nat
  deriving DecidableEq, Repr

/-- `SYSTEM_PROMPT` from `lib.rs`: a raw string literal spanning two source
lines, so the two sentences are separated by a newline character. -/
def SYSTEM_PROMPT : String :=
  "You are a helpful assistant.\nAnswer user questions clearly and concisely."

/-- `const MODEL: Model = Model::Llama3_1_8B;` from `lib.rs`. -/
def MODEL : Model := Model.Llama3_1_8B

/-- Wire-format message: `struct IncomingMessage { role: String, content: String }`. -/
structure IncomingMessage where
  role : String
  content : String
  deriving DecidableEq, Repr

/-- `struct IncomingPayload { messages: Vec<IncomingMessage> }`. -/
structure IncomingPayload where
  messages : List IncomingMessage
  deriving DecidableEq, Repr

/-- The UTF-8 bytes of a string, as natural numbers
(`String::into_bytes` in Rust). -/
def utf8Bytes (s : String) : List Nat :=
  s.toUTF8.toList.map (fun b => b.toNat)

/-- Models Rust `str::to_uppercase` as character-wise uppercasing.  Faithful on
ASCII input (the only comparisons made are against the ASCII literals
"OPTIONS" and "POST"); Unicode multi-character expansions are not modelled. -/
def toUppercase (s : String) : String :=
  String.mk (s.data.map Char.toUpper)

/-- `cs` is an initial segment of `s`, character by character. -/
def startsWithChars : List Char → List Char → Bool
  | [], _ => true
  | _ :: _, [] => false
  | c :: cs, d :: ds => c == d && startsWithChars cs ds

/-- Models Rust `str::starts_with` with a string pattern: the pattern is an
initial segment of the string. -/
def rustStartsWith (s pat : String) : Bool :=
  startsWithChars pat.data s.data

/-- The per-message mapping step of `http_request` (the `match m.role.as_str()`
arms at lines 95–106 of `lib.rs`): exact, case-sensitive match on the role,
with `User` as the fallback for every other role string. -/
def mapMessage (m : IncomingMessage) : ChatMessage :=
  if m.role = "system" then ChatMessage.System m.content
  else if m.role = "assistant" then
    ChatMessage.Assistant { content := some m.content, tool_calls := [] }
  else if m.role = "tool" then ChatMessage.Tool m.content ""
  else ChatMessage.User m.content

/-- The message-mapping loop of `http_request`: the `for m in payload.messages`
push loop, i.e. an order-preserving map of `mapMessage`. -/
def mapMessages (ms : List IncomingMessage) : List ChatMessage :=
  ms.map mapMessage

/-- The conversation assembled by `chat` (lines 40–43 of `lib.rs`): a System
turn carrying `SYSTEM_PROMPT`, followed by the caller's messages via
`Vec::extend`. -/
def assembleMessages (messages : List ChatMessage) : List ChatMessage :=
  ChatMessage.System SYSTEM_PROMPT :: messages

/-- The `chat` entry point of `lib.rs`, with the external inference call
(`ic_llm::chat(MODEL).with_messages(...).send()`) abstracted as the `send`
parameter.  Extracts the reply content, substituting the empty string when it
is absent (`unwrap_or_default`). -/
def chat (send : Model → List ChatMessage → LlmResponse)
    (messages : List ChatMessage) : String :=
  let all_messages := assembleMessages messages
  let response := send MODEL all_messages
  (response.message.content).getD ""

/-- The body-handling block of the `POST /chat` route in `http_request`
(lines 89–131 of `lib.rs`), with the byte-level `serde_json::from_slice`
decoder abstracted as the `decode` parameter. -/
def handleChat (decode : List Nat → Except String IncomingPayload)
    (send : Model → List ChatMessage → LlmResponse)
    (body : List Nat) : HttpResponse :=
  match decode body with
  | Except.ok payload =>
      let all_messages := mapMessages payload.messages
      let reply_text := chat send all_messages
      { status := 200
        headers := [("Content-Type", "text/plain"),
                    ("Access-Control-Allow-Origin", "*")]
        body := utf8Bytes reply_text }
  | Except.error e =>
      { status := 400
        headers := [("Content-Type", "text/plain"),
                    ("Access-Control-Allow-Origin", "*")]
        body := utf8Bytes ("Invalid JSON: " ++ e) }

/-- The `http_request` entry point of `lib.rs`: CORS preflight first, then the
`POST /chat*` route, then the 404 fallback.  Header inspection occurs only in
logging, which is not part of the functional behaviour. -/
def http_request (decode : List Nat → Except String IncomingPayload)
    (send : Model → List ChatMessage → LlmResponse)
    (req : HttpRequest) : HttpResponse :=
  if toUppercase req.method = "OPTIONS" then
    { status := 204
      headers := [("Access-Control-Allow-Origin", "*"),
                  ("Access-Control-Allow-Methods", "POST, OPTIONS"),
                  ("Access-Control-Allow-Headers", "Content-Type")]
      body := [] }
  else if toUppercase req.method = "POST" ∧ rustStartsWith req.url "/chat" = true then
    handleChat decode send req.body
  else
    { status := 404
      headers := [("Content-Type", "text/plain"),
                  ("Access-Control-Allow-Origin", "*")]
      body := utf8Bytes "Not Found" }

/-- A JSON value, used to state properties of the structural decoder at the
level of parsed documents. -/
inductive Json where
  | null
  | bool (b : Bool)
  | num (n : Int)
  | str (s : String)
  | arr (elems : List Json)
  | obj (fields : List (String × Json))
  deriving Repr

/-- Modelled from the spec: the serde-derived structural decoder for
`IncomingMessage` (the derive expansion is library code not under `src/`).
Walks an object's fields in order; the required string fields `role` and
`content` must each occur exactly once (duplicates and wrong types are
rejected, missing required fields are rejected), and unknown fields are
ignored.  The error strings stand in for the decoder's error descriptions. -/
def decodeMessageFields : List (String × Json) → Option String → Option String →
    Except String IncomingMessage
  | [], some role, some content => Except.ok ⟨role, content⟩
  | [], none, _ => Except.error "missing field `role`"
  | [], some _, none => Except.error "missing field `content`"
  | (k, v) :: rest, r, c =>
    if k = "role" then
      match r with
      | some _ => Except.error "duplicate field `role`"
      | none =>
        match v with
        | Json.str s => decodeMessageFields rest (some s) c
        | _ => Except.error "invalid type for field `role`"
    else if k = "content" then
      match c with
      | some _ => Except.error "duplicate field `content`"
      | none =>
        match v with
        | Json.str s => decodeMessageFields rest r (some s)
        | _ => Except.error "invalid type for field `content`"
    else decodeMessageFields rest r c

/-- Modelled from the spec: decoding one element of the `messages` array — it
must be a JSON object, whose fields are processed by `decodeMessageFields`. -/
def decodeIncomingMessage : Json → Except String IncomingMessage
  | Json.obj fields => decodeMessageFields fields none none
  | _ => Except.error "invalid type: expected a map"

/-- Modelled from the spec: decoding the `messages` array elementwise, failing
on the first element that fails. -/
def decodeMessagesList : List Json → Except String (List IncomingMessage)
  | [] => Except.ok []
  | j :: rest =>
    match decodeIncomingMessage j with
    | Except.ok m =>
      match decodeMessagesList rest with
      | Except.ok ms => Except.ok (m :: ms)
      | Except.error e => Except.error e
    | Except.error e => Except.error e

/-- Modelled from the spec: the serde-derived structural decoder for
`IncomingPayload` — an object with the required array field `messages`
occurring exactly once; unknown fields are ignored. -/
def decodePayloadFields : List (String × Json) → Option (List IncomingMessage) →
    Except String IncomingPayload
  | [], some ms => Except.ok ⟨ms⟩
  | [], none => Except.error "missing field `messages`"
  | (k, v) :: rest, acc =>
    if k = "messages" then
      match acc with
      | some _ => Except.error "duplicate field `messages`"
      | none =>
        match v with
        | Json.arr elems =>
          match decodeMessagesList elems with
          | Except.ok ms => decodePayloadFields rest (some ms)
          | Except.error e => Except.error e
        | _ => Except.error "invalid type for field `messages`"
    else decodePayloadFields rest acc

/-- Modelled from the spec: the structural decode of a chat body already parsed
into a JSON document — a top-level object handled by `decodePayloadFields`. -/
def decodePayloadJson : Json → Except String IncomingPayload
  | Json.obj fields => decodePayloadFields fields none
  | _ => Except.error "invalid type: expected a map"

/-! ## Theorems -/

/-- C1 (counterexample): as stated the claim is false — already for the empty
conversation, the System turn that `chat` prepends carries the two sentences
separated by a newline, not by a single space. -/
theorem system_prompt_not_space_separated :
    (assembleMessages []).head? = some (ChatMessage.System SYSTEM_PROMPT) ∧
    SYSTEM_PROMPT ≠
      "You are a helpful assistant. Answer user questions clearly and concisely." :=
  ⟨rfl, by decide⟩

/-- C1 (amended): for every conversation passed to `chat`, the System turn it
prepends as the first element carries exactly the fixed directive string
"You are a helpful assistant.\nAnswer user questions clearly and concisely."
(the two sentences separated by a single newline). -/
theorem system_prompt_directive_content (messages : List ChatMessage) :
    (assembleMessages messages).head? =
      some (ChatMessage.System
        "You are a helpful assistant.\nAnswer user questions clearly and concisely.") :=
  rfl

/-- C3: the message-mapping step is total on (role, content) pairs: by
case-sensitive exact match, "system" yields a System turn, "assistant" yields
an Assistant turn with present content and empty tool-call list, "tool" yields
a Tool turn with empty tool-call identifier, and every other role string
yields a User turn with the given content. -/
theorem role_mapping_total (content : String) :
    mapMessage ⟨"system", content⟩ = ChatMessage.System content ∧
    mapMessage ⟨"assistant", content⟩ =
      ChatMessage.Assistant ⟨some content, []⟩ ∧
    mapMessage ⟨"tool", content⟩ = ChatMessage.Tool content "" ∧
    ∀ role : String, role ≠ "system" → role ≠ "assistant" → role ≠ "tool" →
      mapMessage ⟨role, content⟩ = ChatMessage.User content := by
  refine ⟨by simp [mapMessage], by simp [mapMessage], by simp [mapMessage], ?_⟩
  intro role h1 h2 h3
  simp [mapMessage, h1, h2, h3]

/-- C3 witness: concrete fallback roles — "USER", "System" and the empty
string all map to User turns. -/
theorem role_mapping_total_inst :
    mapMessage ⟨"USER", "hi"⟩ = ChatMessage.User "hi" ∧
    mapMessage ⟨"System", "hi"⟩ = ChatMessage.User "hi" ∧
    mapMessage ⟨"", "hi"⟩ = ChatMessage.User "hi" :=
  ⟨(role_mapping_total "hi").2.2.2 "USER" (by decide) (by decide) (by decide),
   (role_mapping_total "hi").2.2.2 "System" (by decide) (by decide) (by decide),
   (role_mapping_total "hi").2.2.2 "" (by decide) (by decide) (by decide)⟩

/-- C4: the message-mapping step over an `IncomingPayload` with N messages
produces exactly N turns, and the i-th output turn is the image of the i-th
input message — order preserved, nothing dropped, duplicated or reordered. -/
theorem mapper_preserves_order (ms : List IncomingMessage) :
    (mapMessages ms).length = ms.length ∧
    ∀ i : Nat, (mapMessages ms)[i]? = (ms[i]?).map mapMessage :=
  ⟨List.length_map ms mapMessage, fun i => List.getElem?_map mapMessage ms i⟩

/-- C5: the conversation `chat` assembles has length `len(input) + 1`, its
first element is the fixed directive System turn, the remaining elements are
exactly the input turns unchanged and in order (so a caller-supplied System
turn stays as the second element, never merged), and `chat` sends exactly that
assembled conversation to the external model. -/
theorem injector_shape (send : Model → List ChatMessage → LlmResponse)
    (messages : List ChatMessage) :
    (assembleMessages messages).length = messages.length + 1 ∧
    (assembleMessages messages).head? = some (ChatMessage.System SYSTEM_PROMPT) ∧
    (assembleMessages messages).tail = messages ∧
    chat send messages =
      ((send MODEL (assembleMessages messages)).message.content).getD "" :=
  ⟨rfl, rfl, rfl, rfl⟩

/-- C10: the response of `http_request` is independent of the request's header
list — two requests agreeing on method, URL and body but with arbitrary
different headers produce identical responses. -/
theorem headers_do_not_influence (decode : List Nat → Except String IncomingPayload)
    (send : Model → List ChatMessage → LlmResponse)
    (m u : String) (h1 h2 : List (String × String)) (b : List Nat) :
    http_request decode send ⟨m, u, h1, b⟩ = http_request decode send ⟨m, u, h2, b⟩ :=
  rfl

/-- C2: for every non-OPTIONS request, `http_request` dispatches to the chat
handler exactly when the method uppercases to "POST" and the URL starts with
"/chat"; in every other case it returns the 404 Not Found response. -/
theorem routing_dispatch (decode : List Nat → Except String IncomingPayload)
    (send : Model → List ChatMessage → LlmResponse) (req : HttpRequest)
    (hopt : toUppercase req.method ≠ "OPTIONS") :
    (toUppercase req.method = "POST" ∧ rustStartsWith req.url "/chat" = true →
      http_request decode send req = handleChat decode send req.body) ∧
    (¬ (toUppercase req.method = "POST" ∧ rustStartsWith req.url "/chat" = true) →
      http_request decode send req =
        ⟨404, [("Content-Type", "text/plain"), ("Access-Control-Allow-Origin", "*")],
         utf8Bytes "Not Found"⟩) := by
  constructor
  · intro h
    simp only [http_request, if_neg hopt, if_pos h]
  · intro h
    simp only [http_request, if_neg hopt, if_neg h]

/-- C2 witness: a GET to "/chat" yields the 404 response even though the path
matches, and a lowercase-method POST to "/chatbot" is dispatched to the chat
handler. -/
theorem routing_dispatch_inst :
    http_request (fun _ => Except.error "e") (fun _ _ => ⟨⟨none, []⟩⟩)
        ⟨"GET", "/chat", [], []⟩ =
      ⟨404, [("Content-Type", "text/plain"), ("Access-Control-Allow-Origin", "*")],
       utf8Bytes "Not Found"⟩ ∧
    http_request (fun _ => Except.error "e") (fun _ _ => ⟨⟨none, []⟩⟩)
        ⟨"post", "/chatbot", [], []⟩ =
      handleChat (fun _ => Except.error "e") (fun _ _ => ⟨⟨none, []⟩⟩) [] :=
  ⟨(routing_dispatch _ _ ⟨"GET", "/chat", [], []⟩ (by decide)).2 (by decide),
   (routing_dispatch _ _ ⟨"post", "/chatbot", [], []⟩ (by decide)).1 (by decide)⟩

/-- C6: every request whose method uppercases to "OPTIONS" — for any URL,
headers or body — receives status 204 with an empty body and exactly the three
CORS preflight headers. -/
theorem options_preflight (decode : List Nat → Except String IncomingPayload)
    (send : Model → List ChatMessage → LlmResponse) (req : HttpRequest)
    (h : toUppercase req.method = "OPTIONS") :
    http_request decode send req =
      ⟨204, [("Access-Control-Allow-Origin", "*"),
             ("Access-Control-Allow-Methods", "POST, OPTIONS"),
             ("Access-Control-Allow-Headers", "Content-Type")], []⟩ := by
  simp only [http_request, if_pos h]

/-- C6 witness: a mixed-case OPTIONS request with a URL, headers and a
non-empty body still gets the 204 preflight response. -/
theorem options_preflight_inst :
    http_request (fun _ => Except.error "e") (fun _ _ => ⟨⟨none, []⟩⟩)
        ⟨"OpTiOnS", "/anywhere", [("X-Custom", "v")], [0, 255]⟩ =
      ⟨204, [("Access-Control-Allow-Origin", "*"),
             ("Access-Control-Allow-Methods", "POST, OPTIONS"),
             ("Access-Control-Allow-Headers", "Content-Type")], []⟩ :=
  options_preflight _ _ _ (by decide)

/-- C7: on the POST /chat route, a body that the decoder rejects yields status
400 with text/plain and CORS headers and a body equal to "Invalid JSON: "
concatenated with the decoder's error description. -/
theorem decode_failure_400 (decode : List Nat → Except String IncomingPayload)
    (send : Model → List ChatMessage → LlmResponse) (req : HttpRequest) (e : String)
    (hm : toUppercase req.method = "POST")
    (hu : rustStartsWith req.url "/chat" = true)
    (hd : decode req.body = Except.error e) :
    http_request decode send req =
      ⟨400, [("Content-Type", "text/plain"), ("Access-Control-Allow-Origin", "*")],
       utf8Bytes ("Invalid JSON: " ++ e)⟩ := by
  have hopt : toUppercase req.method ≠ "OPTIONS" := by rw [hm]; decide
  simp only [http_request, if_neg hopt, if_pos (And.intro hm hu), handleChat, hd]

/-- C7 witness: a POST to "/chat" with a decoder that rejects the body yields
the 400 response carrying the error description. -/
theorem decode_failure_400_inst :
    http_request (fun _ => Except.error "oops") (fun _ _ => ⟨⟨none, []⟩⟩)
        ⟨"POST", "/chat", [], []⟩ =
      ⟨400, [("Content-Type", "text/plain"), ("Access-Control-Allow-Origin", "*")],
       utf8Bytes ("Invalid JSON: " ++ "oops")⟩ :=
  decode_failure_400 _ _ _ _ (by decide) (by decide) rfl

/-- C8: on the POST /chat route, a successfully decoded body always yields
status 200 with text/plain and CORS headers and the UTF-8 bytes of the reply
text; and `chat` substitutes the empty string when the reply content is
absent, so a 200 with possibly-empty body is this branch's only outcome. -/
theorem decode_success_200 (decode : List Nat → Except String IncomingPayload)
    (send : Model → List ChatMessage → LlmResponse) (req : HttpRequest)
    (payload : IncomingPayload)
    (hm : toUppercase req.method = "POST")
    (hu : rustStartsWith req.url "/chat" = true)
    (hd : decode req.body = Except.ok payload) :
    http_request decode send req =
      ⟨200, [("Content-Type", "text/plain"), ("Access-Control-Allow-Origin", "*")],
       utf8Bytes (chat send (mapMessages payload.messages))⟩ ∧
    (∀ msgs, (send MODEL (assembleMessages msgs)).message.content = none →
      chat send msgs = "") := by
  have hopt : toUppercase req.method ≠ "OPTIONS" := by rw [hm]; decide
  constructor
  · simp only [http_request, if_neg hopt, if_pos (And.intro hm hu), handleChat, hd]
  · intro msgs h
    simp [chat, h]

/-- C8 witness: with a decoder accepting the body and an inference reply whose
content field is absent, the response is a 200 with an empty body. -/
theorem decode_success_200_inst :
    http_request (fun _ => Except.ok ⟨[]⟩) (fun _ _ => ⟨⟨none, []⟩⟩)
        ⟨"POST", "/chat", [], []⟩ =
      ⟨200, [("Content-Type", "text/plain"), ("Access-Control-Allow-Origin", "*")],
       utf8Bytes ""⟩ ∧
    chat (fun _ _ => (⟨⟨none, []⟩⟩ : LlmResponse)) [] = "" :=
  ⟨(decode_success_200 _ _ _ _ (by decide) (by decide) rfl).1,
   (decode_success_200 (fun _ => Except.ok ⟨[]⟩) _ ⟨"POST", "/chat", [], []⟩ _
      (by decide) (by decide) rfl).2 [] rfl⟩

/-- Fields whose keys are neither `role` nor `content` are skipped by the
message field walk. -/
lemma decodeMessageFields_skip (fs : List (String × Json)) (rest : List (String × Json))
    (r c : Option String) (h : ∀ p ∈ fs, p.1 ≠ "role" ∧ p.1 ≠ "content") :
    decodeMessageFields (fs ++ rest) r c = decodeMessageFields rest r c := by
  induction fs with
  | nil => rfl
  | cons p ps ih =>
    obtain ⟨hr, hc⟩ := h p (List.mem_cons_self p ps)
    obtain ⟨k, v⟩ := p
    simp only [List.cons_append, decodeMessageFields, if_neg hr, if_neg hc]
    exact ih fun q hq => h q (List.mem_cons_of_mem _ hq)

/-- Fields whose keys are not `messages` are skipped by the payload field
walk. -/
lemma decodePayloadFields_skip (fs : List (String × Json)) (rest : List (String × Json))
    (acc : Option (List IncomingMessage)) (h : ∀ p ∈ fs, p.1 ≠ "messages") :
    decodePayloadFields (fs ++ rest) acc = decodePayloadFields rest acc := by
  induction fs with
  | nil => rfl
  | cons p ps ih =>
    have hm := h p (List.mem_cons_self p ps)
    obtain ⟨k, v⟩ := p
    simp only [List.cons_append, decodePayloadFields, if_neg hm]
    exact ih fun q hq => h q (List.mem_cons_of_mem _ hq)

/-- C9: the structural decode tolerates unknown extra fields: a JSON object
whose fields include exactly one `messages` key bound to an array of
decodable message objects decodes successfully whatever other unrecognized
fields it carries, and likewise a message object with string `role` and
`content` fields decodes successfully whatever other unrecognized fields
surround them. -/
theorem decode_ignores_unknown_fields
    (pre post : List (String × Json)) (msgs : List Json) (ms : List IncomingMessage)
    (mpre mmid mpost : List (String × Json)) (role content : String)
    (hpre : ∀ p ∈ pre, p.1 ≠ "messages") (hpost : ∀ p ∈ post, p.1 ≠ "messages")
    (hmsgs : decodeMessagesList msgs = Except.ok ms)
    (hm1 : ∀ p ∈ mpre, p.1 ≠ "role" ∧ p.1 ≠ "content")
    (hm2 : ∀ p ∈ mmid, p.1 ≠ "role" ∧ p.1 ≠ "content")
    (hm3 : ∀ p ∈ mpost, p.1 ≠ "role" ∧ p.1 ≠ "content") :
    decodePayloadJson (Json.obj (pre ++ ("messages", Json.arr msgs) :: post)) =
      Except.ok ⟨ms⟩ ∧
    decodeIncomingMessage (Json.obj
        (mpre ++ ("role", Json.str role) ::
          (mmid ++ ("content", Json.str content) :: mpost))) =
      Except.ok ⟨role, content⟩ := by
  have hpost2 := decodePayloadFields_skip post [] (some ms) hpost
  have hm3b := decodeMessageFields_skip mpost [] (some role) (some content) hm3
  rw [List.append_nil] at hpost2 hm3b
  constructor
  · show decodePayloadFields (pre ++ ("messages", Json.arr msgs) :: post) none =
      Except.ok ⟨ms⟩
    rw [decodePayloadFields_skip pre _ none hpre]
    simp [decodePayloadFields, hmsgs, hpost2]
  · show decodeMessageFields
        (mpre ++ ("role", Json.str role) ::
          (mmid ++ ("content", Json.str content) :: mpost))
        none none = Except.ok ⟨role, content⟩
    rw [decodeMessageFields_skip mpre _ none none hm1]
    have step1 : decodeMessageFields
        (("role", Json.str role) :: (mmid ++ ("content", Json.str content) :: mpost))
        none none =
        decodeMessageFields (mmid ++ ("content", Json.str content) :: mpost)
          (some role) none := by
      simp [decodeMessageFields]
    rw [step1, decodeMessageFields_skip mmid _ (some role) none hm2]
    simp [decodeMessageFields, hm3b]

/-- C9 witness: a payload object and a message object both carrying extra
unrecognized fields decode successfully. -/
theorem decode_ignores_unknown_fields_inst :
    decodePayloadJson (Json.obj
        ([("extra", Json.null)] ++
          ("messages", Json.arr
            [Json.obj [("role", Json.str "user"), ("content", Json.str "hi"),
                       ("x", Json.num 3)]]) ::
          [("more", Json.bool true)])) =
      Except.ok ⟨[⟨"user", "hi"⟩]⟩ ∧
    decodeIncomingMessage (Json.obj
        ([("a", Json.null)] ++
          ("role", Json.str "user") ::
            ([("b", Json.str "y")] ++
              ("content", Json.str "hi") :: [("c", Json.num 0)]))) =
      Except.ok ⟨"user", "hi"⟩ :=
  decode_ignores_unknown_fields
    [("extra", Json.null)] [("more", Json.bool true)]
    [Json.obj [("role", Json.str "user"), ("content", Json.str "hi"), ("x", Json.num 3)]]
    [⟨"user", "hi"⟩]
    [("a", Json.null)] [("b", Json.str "y")] [("c", Json.num 0)] "user" "hi"
    (by simp) (by simp) rfl (by simp) (by simp) (by simp)

end AiApi
